import Mathlib

/-!
Verification development for the DivisionofHealthAI static site.

The client-side scripts (global search, pillar filter, theme toggle,
decorative canvas animations) are embedded shallowly: each JS function is
translated to an executable Lean definition over explicit state.  The
data build pipeline (Normalizer, Validator, Page Renderer) is described by
the specification but its code (build.py and templates) is not part of the
checked sources, so it is modelled from the specification text; those
definitions are marked accordingly.
-/

/-! ## JavaScript string primitives

Models of the JS built-ins used by the scripts: `String.prototype.toLowerCase`,
`String.prototype.trim`, `String.prototype.includes`, `String.prototype.substring`,
and the truthiness conventions for possibly-absent string fields. -/

/-- Model of JS toLowerCase: lowercase every character. -/
def lcase (s : String) : String := ⟨s.data.map Char.toLower⟩

/-- List-level take on strings, modelling JS String.prototype.substring from 0. -/
def takeS (s : String) (n : Nat) : String := ⟨s.data.take n⟩

/-- Character-list matching: does the pattern occur at the head of the list. -/
def headMatch : List Char → List Char → Bool
  | [], _ => true
  | _ :: _, [] => false
  | a :: as, b :: bs => a = b && headMatch as bs

/-- Character-list matching: does the pattern occur anywhere in the list. -/
def infixMatch (pat : List Char) : List Char → Bool
  | [] => headMatch pat []
  | c :: rest => headMatch pat (c :: rest) || infixMatch pat rest

/-- Model of JS String.prototype.includes: substring containment. -/
def containsS (hay pat : String) : Bool := infixMatch pat.toList hay.toList

/-- Model of JS String.prototype.trim: strip leading and trailing whitespace. -/
def trimS (s : String) : String :=
  ⟨((s.data.dropWhile Char.isWhitespace).reverse.dropWhile Char.isWhitespace).reverse⟩

/-- Model of JS `field || some-default` on a possibly-absent string field: the
default is used when the field is absent or the empty string (both falsy). -/
def falsyOr (o : Option String) (b : String) : String :=
  match o with
  | some s => if s = "" then b else s
  | none => b

/-- Model of JS `field || empty-string`. -/
def orEmpty (o : Option String) : String := falsyOr o ""

/-- Model of JS truthiness of a possibly-absent string field. -/
def truthy (o : Option String) : Bool :=
  match o with
  | some s => s ≠ ""
  | none => false

/-- Falsiness of a possibly-absent string field. -/
def falsy (o : Option String) : Bool := !(truthy o)

/-! ## Global search (global-search script)

Embedding of the `search` and `displayResults` functions.  A record of any
of the three JSON arrays is modelled with all fields the script reads;
fields the JSON may omit are `Option String`. -/

/-- Record shape consumed by the search script: every field it reads. -/
structure SearchItem where
  name : Option String
  title : Option String
  about : Option String
  abstract : Option String
  journal : Option String
  pillar : Option String
  path : Option String
  itemType : String
deriving DecidableEq

/-- The three in-memory JSON arrays fetched by loadData, already tagged. -/
structure SearchData where
  researchers : List SearchItem
  projects : List SearchItem
  publications : List SearchItem
deriving DecidableEq

/-- Searchable text of an item: the six fields joined by spaces, lowercased,
exactly as built inside `search`. -/
def searchableText (it : SearchItem) : String :=
  lcase (String.intercalate " "
    [orEmpty it.name, orEmpty it.title, orEmpty it.about,
     orEmpty it.abstract, orEmpty it.journal, orEmpty it.pillar])

/-- Match test of `search`: searchable text includes the lowercased query. -/
def matchesQuery (q : String) (it : SearchItem) : Bool :=
  containsS (searchableText it) (lcase q)

/-- Single pass of `search` over the three arrays in their fixed iteration
order, pushing every matching item. -/
def searchPass (q : String) (d : SearchData) : List SearchItem :=
  d.researchers.filter (matchesQuery q) ++
    d.projects.filter (matchesQuery q) ++
    d.publications.filter (matchesQuery q)

/-- The `search` function: queries shorter than two characters return the
empty list, otherwise the matches of the single pass, capped at 10. -/
def search (q : String) (d : SearchData) : List SearchItem :=
  if q.length < 2 then [] else (searchPass q d).take 10

/-- Rendered shape of one search result produced by `displayResults`: the
title text, the optional subtitle and description paragraphs, the optional
pillar badge, and the link target. -/
structure ResultView where
  title : String
  subtitleElem : Option String
  descriptionElem : Option String
  pillarElem : Option String
  href : String
deriving DecidableEq

/-- Per-item body of `displayResults`: computes the rendered pieces for one
result, following the fallback chains of the script. -/
def displayResultItem (baseUrl : String) (it : SearchItem) : ResultView :=
  let title := falsyOr it.name (falsyOr it.title "Untitled")
  let subtitle :=
    if truthy it.title && truthy it.name then orEmpty it.title else orEmpty it.journal
  let description := takeS (falsyOr it.about (falsyOr it.abstract "")) 150
  { title := title
    subtitleElem := if subtitle = "" then none else some subtitle
    descriptionElem := if description = "" then none else some description
    pillarElem :=
      match it.pillar with
      | some p => if p = "" then none else some p
      | none => none
    href := baseUrl ++ orEmpty it.path }

/-- The `displayResults` map over the result list. -/
def displayResults (baseUrl : String) (rs : List SearchItem) : List ResultView :=
  rs.map (displayResultItem baseUrl)

/-! ## Pillar filter (pillar-filter.js)

Embedding of the filter-button click handler: an item is shown when the
active filter is `all` or the trimmed text of its pillar badge equals the
filter value; items without a badge are hidden by any non-`all` filter. -/

/-- List item on the projects page: the text content of its pillar badge
when one is present. -/
structure PillarItem where
  badge : Option String
deriving DecidableEq

/-- Visibility of one list item after the button with `data-filter` value
`f` is activated, following the click handler. -/
def itemShown (f : String) (it : PillarItem) : Bool :=
  f == "all" ||
    (match it.badge with
     | some t => trimS t == f
     | none => false)

/-! ## Theme toggle (theme-toggle.js)

Embedding of the click handler on the theme toggle button. -/

/-- Document state touched by the toggle: the `data-theme` attribute on the
root element and the persisted localStorage value. -/
structure ThemeState where
  attr : String
  stored : Option String
deriving DecidableEq

/-- New theme computed by the click handler from the current attribute. -/
def toggleTheme (t : String) : String := if t = "light" then "theo" else "light"

/-- The click handler: writes the new theme to the attribute and persists
it to localStorage. -/
def themeToggleClick (s : ThemeState) : ThemeState :=
  { attr := toggleTheme s.attr, stored := some (toggleTheme s.attr) }

/-! ## Theme-aware animation colors

Embeddings of the `getColors` helpers of the neural-network background,
the tetris block animation and the card interactions script: each is a
function of the `data-theme` attribute value read at call time, and of the
places where entity state stores a color picked at creation time. -/

/-- Color set returned by the neural background getColors. -/
structure NeuralColors where
  node : String
  nodeGlow : String
  line : String
  nodeHover : String
  nodeHoverGlow : String
deriving DecidableEq

/-- The neural background getColors, reading the attribute passed in. -/
def neuralGetColors (attr : String) : NeuralColors :=
  if attr = "theo" then
    { node := "rgba(0, 196, 212, 0.6)", nodeGlow := "#00c4d4",
      line := "rgba(0, 196, 212, 0.12)", nodeHover := "rgba(139, 92, 246, 0.9)",
      nodeHoverGlow := "#8b5cf6" }
  else
    { node := "rgba(13, 92, 110, 0.4)", nodeGlow := "#1a8fa8",
      line := "rgba(13, 92, 110, 0.1)", nodeHover := "rgba(52, 211, 153, 0.8)",
      nodeHoverGlow := "#34d399" }

/-- Node fill chosen inside the neural draw loop for the current frame:
`colors.nodeHover` near the mouse, `colors.node` otherwise, with `colors`
fetched by getColors during that frame. -/
def neuralNodeFill (attr : String) (isNearMouse : Bool) : String :=
  let colors := neuralGetColors attr
  if isNearMouse then colors.nodeHover else colors.node

/-- Block palette returned by the tetris getColors. -/
def tetrisGetColors (attr : String) : List String :=
  if attr = "theo" then
    ["rgba(0, 196, 212, 0.5)", "rgba(0, 180, 200, 0.45)",
     "rgba(77, 212, 255, 0.5)", "rgba(139, 92, 246, 0.4)"]
  else
    ["rgba(13, 92, 110, 0.4)", "rgba(26, 143, 168, 0.35)",
     "rgba(0, 196, 212, 0.4)", "rgba(52, 211, 153, 0.35)"]

/-- Tetris block state: the color sampled from the palette when the block
was created and stored on the block. -/
structure TetrisBlock where
  color : String
deriving DecidableEq

/-- Color stored on a freshly created block: createBlock calls getColors
with the attribute value current at creation time and picks a palette
entry (the random pick is the `pick` argument). -/
def createBlockColor (attr : String) (pick : Nat) : String :=
  (tetrisGetColors attr).getD (pick % 4) ""

/-- Fill used by drawBlock on a frame whose attribute value is `attr`: the
stored block color, with no theme lookup during the draw. -/
def drawBlockFill (_attr : String) (b : TetrisBlock) : String := b.color

/-- Color pair returned by the card interactions getColors. -/
structure CardColors where
  highlight : String
  ripple : String
deriving DecidableEq

/-- The card interactions getColors, reading the attribute passed in. -/
def cardGetColors (attr : String) : CardColors :=
  if attr = "theo" then
    { highlight := "rgba(139, 92, 246, 0.2)", ripple := "rgba(139, 92, 246, 0.4)" }
  else
    { highlight := "rgba(0, 196, 212, 0.2)", ripple := "rgba(0, 196, 212, 0.4)" }

/-! ## Reduced-motion initialization traces

Embedding of the initialization order of the decorative scripts with
respect to the `prefers-reduced-motion` guard: which DOM and scheduling
effects run before the guard and which are skipped by it. -/

/-- Externally visible initialization effects of an animation script. -/
inductive InitEffect where
  | canvasAppend
  | styleAppend
  | raf
deriving DecidableEq

/-- Initialization trace of the neural background script: the canvas is
created and inserted at module top level, then the reduced-motion guard
runs, and only when it passes does init start the animation loop. -/
def neuralInitEffects (reduced : Bool) : List InitEffect :=
  [InitEffect.canvasAppend] ++ (if reduced then [] else [InitEffect.raf])

/-- Initialization trace of the tetris block script: the reduced-motion
guard runs before any canvas work. -/
def tetrisInitEffects (reduced : Bool) : List InitEffect :=
  if reduced then [] else [InitEffect.canvasAppend, InitEffect.raf]

/-- Initialization trace of the text ticker script: the reduced-motion
guard runs before any canvas work. -/
def tickerInitEffects (reduced : Bool) : List InitEffect :=
  if reduced then [] else [InitEffect.canvasAppend, InitEffect.raf]

/-- Initialization trace of the click pulse script: the reduced-motion
guard runs first; the script never creates a canvas nor schedules frames,
it only injects a style sheet. -/
def clickPulseInitEffects (reduced : Bool) : List InitEffect :=
  if reduced then [] else [InitEffect.styleAppend]

/-! ## Data build pipeline

Modelled from the spec: the Normalizer, Validator and Page Renderer of the
data pipeline (spreadsheet rows to static pages plus JSON) live in the
build tooling (build.py and its templates, per TESTING_COMPLETE.md), which
is not among the checked sources; every definition in this section follows
the specification text for those components. -/

/-- Modelled from the spec: a raw spreadsheet row, a mapping of column
name to cell value; the build code holding the real row type is not in
the checked sources. -/
structure RawRow where
  cells : List (String × String)
deriving DecidableEq

/-- Modelled from the spec: cell lookup by column name, blank when the
column is missing. -/
def cell (row : RawRow) (col : String) : String :=
  ((row.cells.find? (fun c => c.1 == col)).map (fun c => c.2)).getD ""

/-- Modelled from the spec: a source snapshot with the three sheets. -/
structure SourceSnapshot where
  researcherRows : List RawRow
  projectRows : List RawRow
  publicationRows : List RawRow
deriving DecidableEq

/-- Modelled from the spec: trim a cell and coerce blank to absent. -/
def normStr (s : String) : Option String :=
  let t := trimS s
  if t = "" then none else some t

/-- Modelled from the spec: a normalized researcher record. -/
structure Researcher where
  id : String
  name : String
  title : String
  about : String
  photo : Option String
  link : Option String
  lead : Bool
deriving DecidableEq

/-- Modelled from the spec: a normalized project record. -/
structure Project where
  id : String
  title : String
  summary : String
  pillar : String
  image : Option String
  researcherRefs : List String
deriving DecidableEq

/-- Modelled from the spec: a normalized publication record. -/
structure Publication where
  id : String
  title : String
  journal : String
  abstract : String
  image : Option String
  projectRef : Option String
deriving DecidableEq

/-- Modelled from the spec: the full normalized set handed to the
Validator and the Renderer. -/
structure Dataset where
  researchers : List Researcher
  projects : List Project
  publications : List Publication
deriving DecidableEq

/-- Modelled from the spec: coercion of a lead-flag cell; unrecognized
nonblank text is a parse failure, returned rather than thrown. -/
def parseLead (s : String) : Except String Bool :=
  let t := lcase (trimS s)
  if t = "" || t = "false" || t = "0" || t = "no" then Except.ok false
  else if t = "true" || t = "1" || t = "yes" then Except.ok true
  else Except.error ("cannot parse lead flag: " ++ s)

/-- Modelled from the spec: comma-split of a references cell into
trimmed, nonblank identifiers. -/
def splitRefs (s : String) : List String :=
  ((s.splitOn ",").map trimS).filter (fun r => r ≠ "")

/-- Modelled from the spec: Normalizer for one researcher row. -/
def normalizeResearcher (row : RawRow) : Except String Researcher :=
  match parseLead (cell row "lead") with
  | Except.error e => Except.error e
  | Except.ok lead =>
      Except.ok
        { id := trimS (cell row "id"), name := trimS (cell row "name"),
          title := trimS (cell row "title"), about := trimS (cell row "about"),
          photo := normStr (cell row "photo"), link := normStr (cell row "linkedin"),
          lead := lead }

/-- Modelled from the spec: Normalizer for one project row; a missing
pillar defaults to `unspecified` rather than failing. -/
def normalizeProject (row : RawRow) : Except String Project :=
  Except.ok
    { id := trimS (cell row "id"), title := trimS (cell row "title"),
      summary := trimS (cell row "summary"),
      pillar := (normStr (cell row "pillar")).getD "unspecified",
      image := normStr (cell row "image"),
      researcherRefs := splitRefs (cell row "researchers") }

/-- Modelled from the spec: Normalizer for one publication row. -/
def normalizePublication (row : RawRow) : Except String Publication :=
  Except.ok
    { id := trimS (cell row "id"), title := trimS (cell row "title"),
      journal := trimS (cell row "journal"), abstract := trimS (cell row "abstract"),
      image := normStr (cell row "image"), projectRef := normStr (cell row "project") }

/-- Modelled from the spec: run a row Normalizer over a sheet, keeping
row order for the successes and aggregating every failure instead of
stopping at the first. -/
def collectNorm {α : Type} (f : RawRow → Except String α) (rows : List RawRow) :
    List α × List String :=
  rows.foldr
    (fun row acc =>
      match f row with
      | Except.ok a => (a :: acc.1, acc.2)
      | Except.error e => (acc.1, e :: acc.2))
    ([], [])

/-- Modelled from the spec: severity of a validation finding. -/
inductive Severity where
  | error
  | warning
deriving DecidableEq

/-- Modelled from the spec: a typed reference to a record, the entity
type together with the record identifier. -/
structure EntityRef where
  etype : String
  eid : String
deriving DecidableEq

/-- Modelled from the spec: one structured validation finding with a
severity, a rule tag, the offending entity, the missing target identifier
when the rule is about a reference, and every identifier the message
names. -/
structure Finding where
  severity : Severity
  rule : String
  entity : EntityRef
  target : Option String
  ids : List String
  message : String
deriving DecidableEq

/-- Modelled from the spec: the fixed pillar enumeration, with the
Normalizer default as an allowed placeholder. -/
def pillarValues : List String := ["PREDICT", "PREVENT", "PERSONALIZE", "unspecified"]

/-- Modelled from the spec: required-field presence rule. -/
def requiredFieldFindings (d : Dataset) : List Finding :=
  (d.researchers.filter (fun r => r.id == "" || r.name == "")).map
    (fun r =>
      { severity := Severity.error, rule := "required", entity := ⟨"researcher", r.id⟩,
        target := none, ids := [r.id], message := "researcher missing required field" }) ++
  (d.projects.filter (fun p => p.id == "" || p.title == "")).map
    (fun p =>
      { severity := Severity.error, rule := "required", entity := ⟨"project", p.id⟩,
        target := none, ids := [p.id], message := "project missing required field" }) ++
  (d.publications.filter (fun p => p.id == "" || p.title == "")).map
    (fun p =>
      { severity := Severity.error, rule := "required", entity := ⟨"publication", p.id⟩,
        target := none, ids := [p.id], message := "publication missing required field" })

/-- Modelled from the spec: pillar enum membership rule. -/
def enumFindings (d : Dataset) : List Finding :=
  (d.projects.filter (fun p => !(pillarValues.contains p.pillar))).map
    (fun p =>
      { severity := Severity.error, rule := "enum", entity := ⟨"project", p.id⟩,
        target := none, ids := [p.id], message := "project pillar outside the enumeration" })

/-- Modelled from the spec: the finding for one unresolved project to
researcher reference. -/
def projRefFinding (p : Project) (r : String) : Finding :=
  { severity := Severity.error, rule := "crossref", entity := ⟨"project", p.id⟩,
    target := some r, ids := [p.id, r],
    message := "project " ++ p.id ++ " references missing researcher " ++ r }

/-- Modelled from the spec: the finding for one unresolved publication to
project reference. -/
def pubRefFinding (p : Publication) (r : String) : Finding :=
  { severity := Severity.error, rule := "crossref", entity := ⟨"publication", p.id⟩,
    target := some r, ids := [p.id, r],
    message := "publication " ++ p.id ++ " references missing project " ++ r }

/-- Modelled from the spec: cross-reference resolution rule, one error
per unresolved reference, naming the offending record and the missing
target. -/
def crossRefFindings (d : Dataset) : List Finding :=
  (d.projects.flatMap
    (fun p =>
      (p.researcherRefs.filter (fun r => !(d.researchers.any (fun x => x.id == r)))).map
        (projRefFinding p))) ++
  (d.publications.flatMap
    (fun p =>
      match p.projectRef with
      | some r =>
          if d.projects.any (fun x => x.id == r) then [] else [pubRefFinding p r]
      | none => []))

/-- Modelled from the spec: identifier uniqueness rule within each
entity type. -/
def uniquenessFindings (d : Dataset) : List Finding :=
  (((d.researchers.map (fun r => r.id)).filter
      (fun i => 1 < (d.researchers.map (fun r => r.id)).count i)).dedup).map
    (fun i =>
      { severity := Severity.error, rule := "unique", entity := ⟨"researcher", i⟩,
        target := none, ids := [i], message := "duplicate researcher identifier" }) ++
  (((d.projects.map (fun p => p.id)).filter
      (fun i => 1 < (d.projects.map (fun p => p.id)).count i)).dedup).map
    (fun i =>
      { severity := Severity.error, rule := "unique", entity := ⟨"project", i⟩,
        target := none, ids := [i], message := "duplicate project identifier" }) ++
  (((d.publications.map (fun p => p.id)).filter
      (fun i => 1 < (d.publications.map (fun p => p.id)).count i)).dedup).map
    (fun i =>
      { severity := Severity.error, rule := "unique", entity := ⟨"publication", i⟩,
        target := none, ids := [i], message := "duplicate publication identifier" })

/-- Modelled from the spec: leadership-uniqueness rule; exactly one
flagged lead is silent, anything else is a single warning naming every
flagged identifier. -/
def leadershipFindings (d : Dataset) : List Finding :=
  let leads := d.researchers.filter (fun r => r.lead)
  if leads.length == 1 then []
  else
    [{ severity := Severity.warning, rule := "leadership", entity := ⟨"researchers", ""⟩,
       target := none, ids := leads.map (fun r => r.id),
       message := "division lead flag must be set on exactly one researcher" }]

/-- Modelled from the spec: the Validator, every rule evaluated
independently with no short circuit, findings concatenated. -/
def validate (d : Dataset) : List Finding :=
  requiredFieldFindings d ++ enumFindings d ++ crossRefFindings d ++
    uniquenessFindings d ++ leadershipFindings d

/-- Test for a leadership warning among the findings. -/
def isLeadWarn (f : Finding) : Bool :=
  f.rule == "leadership" && f.severity == Severity.warning

/-- Test for an error finding blaming project `pid` for the missing
referenced identifier `r`. -/
def projErrPred (pid r : String) (f : Finding) : Bool :=
  f.severity == Severity.error && f.entity == EntityRef.mk "project" pid &&
    f.target == some r

/-- Test for an error finding blaming publication `pid` for the missing
referenced identifier `r`. -/
def pubErrPred (pid r : String) (f : Finding) : Bool :=
  f.severity == Severity.error && f.entity == EntityRef.mk "publication" pid &&
    f.target == some r

/-- Modelled from the spec: ambient build context; the timestamp stands
for any wall-clock input of a run and must not reach the output, the base
path is the documented environment override. -/
structure BuildContext where
  timestamp : Nat
  basePath : String
deriving DecidableEq

/-- Modelled from the spec: rendering of an optional external profile
link slot; an absent link omits the slot entirely. -/
def linkSlot (link : Option String) : String :=
  match link with
  | some l => "<a href=" ++ l ++ ">LinkedIn</a>"
  | none => ""

/-- Modelled from the spec: detail page for one researcher. -/
def researcherDetailPage (r : Researcher) : String :=
  "<h1>" ++ r.name ++ "</h1><p>" ++ r.title ++ "</p><p>" ++ r.about ++ "</p>" ++
    linkSlot r.link

/-- Modelled from the spec: detail page for one project. -/
def projectDetailPage (p : Project) : String :=
  "<h1>" ++ p.title ++ "</h1><p>" ++ p.summary ++ "</p><span>" ++ p.pillar ++ "</span>"

/-- Modelled from the spec: detail page for one publication. -/
def publicationDetailPage (p : Publication) : String :=
  "<h1>" ++ p.title ++ "</h1><p>" ++ p.journal ++ "</p><p>" ++ p.abstract ++ "</p>"

/-- Modelled from the spec: list page per entity type in insertion
order. -/
def listPage (titles : List String) : String :=
  "<ul>" ++ String.join (titles.map (fun t => "<li>" ++ t ++ "</li>")) ++ "</ul>"

/-- Modelled from the spec: one JSON index line per record. -/
def jsonLine (id title path : String) : String :=
  "[id " ++ id ++ "; title " ++ title ++ "; path " ++ path ++ "]"

/-- Modelled from the spec: serialization of one finding for the
findings file. -/
def findingLine (f : Finding) : String :=
  (match f.severity with
   | Severity.error => "error "
   | Severity.warning => "warning ") ++ f.rule ++ " " ++ f.entity.etype ++ " " ++
    f.entity.eid ++ ": " ++ f.message

/-- Modelled from the spec: the Page Renderer output, a list of output
files as path and content pairs; links are prefixed with the base path
override and nothing reads the timestamp. -/
def renderSite (ctx : BuildContext) (d : Dataset) (findings : List Finding)
    (failures : List String) : List (String × String) :=
  [("index.html",
      "<h1>Division</h1>" ++
        listPage (d.researchers.map (fun r => r.name)) ++
        listPage (d.projects.map (fun p => p.title))),
   ("researchers/index.html", listPage (d.researchers.map (fun r => r.name))),
   ("projects/index.html", listPage (d.projects.map (fun p => p.title))),
   ("publications/index.html", listPage (d.publications.map (fun p => p.title)))] ++
  (d.researchers.map (fun r =>
    ("researchers/" ++ r.id ++ ".html", researcherDetailPage r))) ++
  (d.projects.map (fun p =>
    ("projects/" ++ p.id ++ ".html", projectDetailPage p))) ++
  (d.publications.map (fun p =>
    ("publications/" ++ p.id ++ ".html", publicationDetailPage p))) ++
  [("data/researchers.json",
      String.join (d.researchers.map (fun r =>
        jsonLine r.id r.name (ctx.basePath ++ "researchers/" ++ r.id ++ ".html")))),
   ("data/projects.json",
      String.join (d.projects.map (fun p =>
        jsonLine p.id p.title (ctx.basePath ++ "projects/" ++ p.id ++ ".html")))),
   ("data/publications.json",
      String.join (d.publications.map (fun p =>
        jsonLine p.id p.title (ctx.basePath ++ "publications/" ++ p.id ++ ".html")))),
   ("data/findings.json",
      String.join (findings.map findingLine) ++ String.join failures)]

/-- Modelled from the spec: the full pipeline of one build run, normalize
then validate then render; the write step is represented by the returned
file list. -/
def buildPipeline (ctx : BuildContext) (src : SourceSnapshot) : List (String × String) :=
  let nr := collectNorm normalizeResearcher src.researcherRows
  let np := collectNorm normalizeProject src.projectRows
  let nb := collectNorm normalizePublication src.publicationRows
  let d : Dataset := ⟨nr.1, np.1, nb.1⟩
  renderSite ctx d (validate d) (nr.2 ++ np.2 ++ nb.2)

/-- Sample search data used by concrete witnesses. -/
def sampleData : SearchData :=
  { researchers :=
      [{ name := some "Theo Zanos", title := some "Director", about := some "health ai lead",
         abstract := none, journal := none, pillar := none,
         path := some "researchers/1.html", itemType := "researcher" }]
    projects :=
      [{ name := none, title := some "Predict sepsis", about := some "early warning ai",
         abstract := none, journal := none, pillar := some "PREDICT",
         path := some "projects/1.html", itemType := "project" }]
    publications :=
      [{ name := none, title := some "Vagus paper", about := none,
         abstract := some "nerve stimulation study", journal := some "Nature",
         pillar := none, path := some "publications/1.html", itemType := "publication" }] }

/-- Sample researcher record used by concrete witnesses. -/
def sampleResearcher : Researcher :=
  { id := "r1", name := "A Example", title := "Director", about := "bio",
    photo := none, link := none, lead := true }

/-- Sample project record with an unresolved researcher reference. -/
def sampleProj : Project :=
  { id := "p1", title := "Proj", summary := "sum", pillar := "PREDICT",
    image := none, researcherRefs := ["r9"] }

/-- Sample publication record with an unresolved project reference. -/
def samplePub : Publication :=
  { id := "b1", title := "Pub", journal := "J", abstract := "abs",
    image := none, projectRef := some "p9" }

/-- Sample dataset with one unresolved reference in each direction, used
by concrete witnesses. -/
def samplePipelineData : Dataset :=
  { researchers := [sampleResearcher]
    projects := [sampleProj]
    publications := [samplePub] }

/-- Sample dataset with two flagged division leads, used by concrete
witnesses. -/
def sampleLeadData : Dataset :=
  { researchers :=
      [{ id := "r1", name := "A Example", title := "Director", about := "bio",
         photo := none, link := none, lead := true },
       { id := "r2", name := "B Example", title := "Deputy", about := "bio",
         photo := none, link := none, lead := true }]
    projects := []
    publications := [] }

/-- Record with every optional field absent, used by concrete witnesses. -/
def emptyItem : SearchItem :=
  { name := none, title := none, about := none, abstract := none,
    journal := none, pillar := none, path := none, itemType := "researcher" }

theorem sample_search_demo : (search "ai" sampleData).length = 2 := by decide

/-! ## Claims about the global search script -/

/-- Claim C1: for every query of length at least two, search returns only
items whose searchable text contains the lowercased query as a substring,
and the result is computed by one linear pass over the three arrays in
the fixed order researchers, projects, publications. -/
theorem search_only_matching_linear (q : String) (d : SearchData) (h : 2 ≤ q.length) :
    search q d =
      ((d.researchers ++ d.projects ++ d.publications).filter (matchesQuery q)).take 10 ∧
    ∀ it ∈ search q d, matchesQuery q it = true := by
  have hq : ¬ q.length < 2 := Nat.not_lt.mpr h
  refine ⟨?_, ?_⟩
  · simp [search, searchPass, hq, List.filter_append]
  · intro it hit
    simp only [search, if_neg hq] at hit
    have h2 : it ∈ searchPass q d := List.take_subset _ _ hit
    simp only [searchPass, List.mem_append, List.mem_filter] at h2
    rcases h2 with (⟨_, hm⟩ | ⟨_, hm⟩) | ⟨_, hm⟩ <;> exact hm

/-- Witness for C1 at the query `ai` on the sample data. -/
theorem search_only_matching_linear_witness :
    2 ≤ ("ai" : String).length ∧
      (search "ai" sampleData =
        ((sampleData.researchers ++ sampleData.projects ++ sampleData.publications).filter
          (matchesQuery "ai")).take 10 ∧
       ∀ it ∈ search "ai" sampleData, matchesQuery "ai" it = true) :=
  ⟨by decide, search_only_matching_linear "ai" sampleData (by decide)⟩

/-- Claim C8: search returns at most ten results, and every query shorter
than two characters returns the empty list. -/
theorem search_cap_and_short_query (q : String) (d : SearchData) :
    (search q d).length ≤ 10 ∧ (q.length < 2 → search q d = []) := by
  constructor
  · by_cases hq : q.length < 2
    · simp [search, hq]
    · simp only [search, if_neg hq]
      rw [List.length_take]
      exact Nat.min_le_left _ _
  · intro h
    simp [search, h]

/-- Witness for C8 at the one-character query `x` on the sample data. -/
theorem search_cap_and_short_query_witness :
    (search "x" sampleData).length ≤ 10 ∧
      (("x" : String).length < 2 → search "x" sampleData = []) :=
  search_cap_and_short_query "x" sampleData

/-! ## Claims about the theme toggle -/

/-- Claim C10: one click maps the light theme to theo and any other
attribute value to light, persists the new value, and two consecutive
clicks restore any starting value in the set light, theo. -/
theorem theme_toggle_involution (s : ThemeState) :
    (s.attr = "light" → (themeToggleClick s).attr = "theo") ∧
    (s.attr ≠ "light" → (themeToggleClick s).attr = "light") ∧
    (themeToggleClick s).stored = some (themeToggleClick s).attr ∧
    ((s.attr = "light" ∨ s.attr = "theo") →
      (themeToggleClick (themeToggleClick s)).attr = s.attr) := by
  by_cases h : s.attr = "light"
  · refine ⟨fun _ => ?_, fun hn => absurd h hn, ?_, fun _ => ?_⟩ <;>
      simp [themeToggleClick, toggleTheme, h]
  · refine ⟨fun hl => absurd hl h, fun _ => ?_, ?_, fun hd => ?_⟩
    · simp [themeToggleClick, toggleTheme, h]
    · simp [themeToggleClick, toggleTheme, h]
    · rcases hd with hl | ht
      · exact absurd hl h
      · simp [themeToggleClick, toggleTheme, h, ht]

/-- Witness for C10 at the starting attribute `theo`. -/
theorem theme_toggle_involution_witness :
    ((ThemeState.mk "theo" none).attr = "light" →
      (themeToggleClick ⟨"theo", none⟩).attr = "theo") ∧
    ((ThemeState.mk "theo" none).attr ≠ "light" →
      (themeToggleClick ⟨"theo", none⟩).attr = "light") ∧
    (themeToggleClick ⟨"theo", none⟩).stored =
      some (themeToggleClick ⟨"theo", none⟩).attr ∧
    (((ThemeState.mk "theo" none).attr = "light" ∨
        (ThemeState.mk "theo" none).attr = "theo") →
      (themeToggleClick (themeToggleClick ⟨"theo", none⟩)).attr =
        (ThemeState.mk "theo" none).attr) :=
  theme_toggle_involution ⟨"theo", none⟩

/-! ## Claims about the pillar filter -/

/-- Counterexample to claim C5 as stated: an item whose badge text has a
leading space is displayed by the filter whose value equals the trimmed
text, although its raw badge text does not equal the filter value and the
filter is not `all`. -/
theorem pillar_filter_counterexample :
    itemShown "PREDICT" ⟨some " PREDICT"⟩ = true ∧
    ¬ ("PREDICT" = "all" ∨ (PillarItem.mk (some " PREDICT")).badge = some "PREDICT") := by
  decide

/-- Claim C5 amended: after activating the filter with value f, an item is
displayed exactly when f is `all` or the trimmed badge text equals f, so a
pillar filter hides every item of another pillar and `all` shows every
item. -/
theorem pillar_filter_trimmed (f : String) (it : PillarItem) :
    (itemShown f it = true ↔ (f = "all" ∨ it.badge.map trimS = some f)) ∧
    itemShown "all" it = true := by
  constructor
  · cases hb : it.badge with
    | none => simp [itemShown, hb]
    | some t => simp [itemShown, hb]
  · cases hb : it.badge <;> simp [itemShown, hb]

/-- Witness for the amended C5 at the filter `PREVENT`. -/
theorem pillar_filter_trimmed_witness :
    (itemShown "PREVENT" ⟨some "PREVENT"⟩ = true ↔
      ("PREVENT" = "all" ∨
        (PillarItem.mk (some "PREVENT")).badge.map trimS = some "PREVENT")) ∧
    itemShown "all" ⟨some "PREVENT"⟩ = true :=
  pillar_filter_trimmed "PREVENT" ⟨some "PREVENT"⟩

/-! ## Claims about the search results view -/

/-- Counterexample to claim C6 as stated: a record with no name and no
title is rendered with the substituted placeholder title `Untitled`, not
with nothing. -/
theorem display_untitled_counterexample :
    (displayResultItem "" emptyItem).title = "Untitled" ∧
    (displayResultItem "" emptyItem).title ≠ "" := by
  decide

/-- Claim C6 amended: an absent subtitle source or excerpt source yields
no element, an absent pillar yields no badge, and an absent path
contributes nothing to the link target, which stays the bare base URL;
but a record with both name and title absent gets the substituted
placeholder title `Untitled`. -/
theorem display_absent_fields (b : String) (it : SearchItem) :
    (falsy it.journal = true → (falsy it.title = true ∨ falsy it.name = true) →
      (displayResultItem b it).subtitleElem = none) ∧
    (falsy it.about = true → falsy it.abstract = true →
      (displayResultItem b it).descriptionElem = none) ∧
    (falsy it.pillar = true → (displayResultItem b it).pillarElem = none) ∧
    (falsy it.name = true → falsy it.title = true →
      (displayResultItem b it).title = "Untitled") ∧
    (falsy it.path = true → (displayResultItem b it).href = b) := by
  have hTr : ∀ o : Option String, falsy o = true → truthy o = false := by
    intro o ho
    simpa [falsy, Bool.not_eq_true'] using ho
  have hOE : ∀ o : Option String, falsy o = true → orEmpty o = "" := by
    intro o ho
    cases o with
    | none => rfl
    | some s =>
        simp [falsy, truthy] at ho
        simp [orEmpty, falsyOr, ho]
  have hFO : ∀ (o : Option String) (c : String), falsy o = true → falsyOr o c = c := by
    intro o c ho
    cases o with
    | none => rfl
    | some s =>
        simp [falsy, truthy] at ho
        simp [falsyOr, ho]
  refine ⟨?_, ?_, ?_, ?_, ?_⟩
  · intro hj hnm
    rcases hnm with h | h
    · simp [displayResultItem, hTr _ h, hOE _ hj]
    · simp [displayResultItem, hTr _ h, hOE _ hj]
  · intro ha hb2
    simp [displayResultItem, hFO _ _ ha, hFO _ _ hb2, takeS]
  · intro hp
    cases hpv : it.pillar with
    | none => simp [displayResultItem, hpv]
    | some s =>
        have hs : s = "" := by simpa [falsy, truthy, hpv] using hp
        simp [displayResultItem, hpv, hs]
  · intro hn ht
    simp [displayResultItem, hFO _ _ hn, hFO _ _ ht]
  · intro hp
    simp [displayResultItem, hOE _ hp]

/-- Witness for the amended C6 at the all-absent record. -/
theorem display_absent_fields_witness :
    (displayResultItem "" emptyItem).subtitleElem = none ∧
    (displayResultItem "" emptyItem).descriptionElem = none ∧
    (displayResultItem "" emptyItem).pillarElem = none ∧
    (displayResultItem "" emptyItem).title = "Untitled" ∧
    (displayResultItem "" emptyItem).href = "" :=
  ⟨(display_absent_fields "" emptyItem).1 (by decide) (Or.inl (by decide)),
   (display_absent_fields "" emptyItem).2.1 (by decide) (by decide),
   (display_absent_fields "" emptyItem).2.2.1 (by decide),
   (display_absent_fields "" emptyItem).2.2.2.1 (by decide) (by decide),
   (display_absent_fields "" emptyItem).2.2.2.2 (by decide)⟩

/-! ## Claims about theme-aware animation colors -/

/-- Counterexample to claim C7 as stated: a tetris block created while
the attribute was `light` keeps its stored light-palette color on a frame
drawn while the attribute is `theo`, and that color is not in the theo
palette. -/
theorem entity_color_counterexample :
    drawBlockFill "theo" ⟨createBlockColor "light" 0⟩ ∉ tetrisGetColors "theo" ∧
    drawBlockFill "theo" ⟨createBlockColor "light" 0⟩ ∈ tetrisGetColors "light" := by
  decide

/-- Claim C7 amended: every getColors call is a function of the attribute
value read at that call, with all non-theo values giving the light
palette, and a frame of the neural script fills nodes only with colors of
that call; but a block fill comes from the color stored at creation,
independent of the attribute current at draw time. -/
theorem theme_colors_per_call (a : String) (near : Bool) (b : TetrisBlock) :
    (neuralNodeFill a near = (neuralGetColors a).node ∨
      neuralNodeFill a near = (neuralGetColors a).nodeHover) ∧
    (a ≠ "theo" →
      neuralGetColors a = neuralGetColors "light" ∧
      tetrisGetColors a = tetrisGetColors "light" ∧
      cardGetColors a = cardGetColors "light") ∧
    drawBlockFill a b = b.color := by
  refine ⟨?_, ?_, rfl⟩
  · cases near
    · left
      simp [neuralNodeFill]
    · right
      simp [neuralNodeFill]
  · intro h
    refine ⟨?_, ?_, ?_⟩ <;> simp [neuralGetColors, tetrisGetColors, cardGetColors, h]

/-- Witness for the amended C7 at the attribute value `dark`. -/
theorem theme_colors_per_call_witness :
    (neuralNodeFill "dark" true = (neuralGetColors "dark").node ∨
      neuralNodeFill "dark" true = (neuralGetColors "dark").nodeHover) ∧
    (neuralGetColors "dark" = neuralGetColors "light" ∧
      tetrisGetColors "dark" = tetrisGetColors "light" ∧
      cardGetColors "dark" = cardGetColors "light") ∧
    drawBlockFill "dark" ⟨"c"⟩ = (TetrisBlock.mk "c").color :=
  ⟨(theme_colors_per_call "dark" true ⟨"c"⟩).1,
   (theme_colors_per_call "dark" true ⟨"c"⟩).2.1 (by decide),
   (theme_colors_per_call "dark" true ⟨"c"⟩).2.2⟩

/-! ## Claims about the reduced-motion guards -/

/-- Counterexample to claim C9 as stated: with reduced motion requested,
the neural background script still appends its canvas, because the canvas
insertion happens at module top level before the guard runs. -/
theorem reduced_motion_counterexample :
    InitEffect.canvasAppend ∈ neuralInitEffects true := by
  decide

/-- Claim C9 amended: with reduced motion requested no script schedules an
animation frame, and the tetris, ticker and click pulse scripts return
before any effect, but the neural background script has already appended
its canvas when its guard runs. -/
theorem reduced_motion_guard :
    InitEffect.raf ∉ neuralInitEffects true ∧
    tetrisInitEffects true = [] ∧
    tickerInitEffects true = [] ∧
    clickPulseInitEffects true = [] ∧
    InitEffect.canvasAppend ∈ neuralInitEffects true := by
  decide

/-! ## Validator helper lemmas -/

/-- Findings of the required-field rule: rule tag and absent target. -/
theorem requiredField_shape (d : Dataset) :
    ∀ f ∈ requiredFieldFindings d, f.rule = "required" ∧ f.target = none := by
  intro f hf
  simp only [requiredFieldFindings, List.mem_append, List.mem_map] at hf
  rcases hf with (⟨x, _, rfl⟩ | ⟨x, _, rfl⟩) | ⟨x, _, rfl⟩ <;> exact ⟨rfl, rfl⟩

/-- Findings of the enum rule: rule tag and absent target. -/
theorem enum_shape (d : Dataset) :
    ∀ f ∈ enumFindings d, f.rule = "enum" ∧ f.target = none := by
  intro f hf
  simp only [enumFindings, List.mem_map] at hf
  rcases hf with ⟨x, _, rfl⟩
  exact ⟨rfl, rfl⟩

/-- Findings of the uniqueness rule: rule tag and absent target. -/
theorem uniqueness_shape (d : Dataset) :
    ∀ f ∈ uniquenessFindings d, f.rule = "unique" ∧ f.target = none := by
  intro f hf
  simp only [uniquenessFindings, List.mem_append, List.mem_map] at hf
  rcases hf with (⟨x, _, rfl⟩ | ⟨x, _, rfl⟩) | ⟨x, _, rfl⟩ <;> exact ⟨rfl, rfl⟩

/-- Findings of the cross-reference rule carry the crossref tag. -/
theorem crossRef_rule (d : Dataset) :
    ∀ f ∈ crossRefFindings d, f.rule = "crossref" := by
  intro f hf
  simp only [crossRefFindings, List.mem_append, List.mem_flatMap, List.mem_map] at hf
  rcases hf with ⟨p, _, x, _, rfl⟩ | ⟨p, _, hfp⟩
  · rfl
  · cases hpr : p.projectRef with
    | none => rw [hpr] at hfp; cases hfp
    | some r =>
        rw [hpr] at hfp
        by_cases hc : (d.projects.any (fun x => x.id == r)) = true
        · simp [hc] at hfp
        · simp [hc] at hfp
          subst hfp
          rfl

/-- Findings of the leadership rule: rule tag, warning severity, absent
target, and the flagged identifiers. -/
theorem leadership_shape (d : Dataset) :
    ∀ f ∈ leadershipFindings d,
      f.rule = "leadership" ∧ f.severity = Severity.warning ∧ f.target = none ∧
      f.ids = (d.researchers.filter (fun r => r.lead)).map (fun r => r.id) := by
  intro f hf
  by_cases h : ((d.researchers.filter (fun r => r.lead)).length == 1) = true
  · simp [leadershipFindings, h] at hf
  · simp only [leadershipFindings, if_neg h, List.mem_singleton] at hf
    subst hf
    exact ⟨rfl, rfl, rfl, rfl⟩

/-- Rules with another tag contribute no leadership warning. -/
theorem countP_lead_zero_of_rule (l : List Finding) (rl : String)
    (h : ∀ f ∈ l, f.rule = rl) (hne : rl ≠ "leadership") :
    l.countP isLeadWarn = 0 := by
  rw [List.countP_eq_zero]
  intro f hf
  simp [isLeadWarn, h f hf, hne]

/-- Findings without a target never satisfy the project error test. -/
theorem countP_projErr_zero_of_target (l : List Finding) (pid r : String)
    (h : ∀ f ∈ l, f.target = none) :
    l.countP (projErrPred pid r) = 0 := by
  rw [List.countP_eq_zero]
  intro f hf
  simp [projErrPred, h f hf]

/-- Findings without a target never satisfy the publication error test. -/
theorem countP_pubErr_zero_of_target (l : List Finding) (pid r : String)
    (h : ∀ f ∈ l, f.target = none) :
    l.countP (pubErrPred pid r) = 0 := by
  rw [List.countP_eq_zero]
  intro f hf
  simp [pubErrPred, h f hf]

/-- The project error test on a project cross-reference finding reduces
to the reference equality. -/
theorem projErrPred_projRefFinding (p : Project) (r s : String) :
    projErrPred p.id r (projRefFinding p s) = (s == r) := by
  by_cases h : s = r
  · subst h
    simp [projErrPred, projRefFinding]
  · simp [projErrPred, projRefFinding, h]

/-- Counting a nodup occurrence through an extra test. -/
theorem countP_beq_and_eq_one (l : List String) (r : String) (q : String → Bool)
    (hn : l.Nodup) (hr : r ∈ l) (hq : q r = true) :
    l.countP (fun s => s == r && q s) = 1 := by
  induction l with
  | nil => cases hr
  | cons a as ih =>
      rw [List.countP_cons]
      rcases List.mem_cons.mp hr with he | hras
      · subst he
        have hna : r ∉ as := (List.nodup_cons.mp hn).1
        have hz : as.countP (fun s => s == r && q s) = 0 := by
          rw [List.countP_eq_zero]
          intro x hx hpx
          have hx2 : x = r := eq_of_beq ((Bool.and_eq_true _ _).mp hpx).1
          exact hna (hx2 ▸ hx)
        have hcond : (r == r && q r) = true := by simp [hq]
        rw [hz, hcond]
        rfl
      · have ha : a ≠ r := fun he => (List.nodup_cons.mp hn).1 (he ▸ hras)
        have htl := ih (List.nodup_cons.mp hn).2 hras
        simp [htl, ha]

/-- Counting the project-side cross-reference findings: an unresolved
reference of a listed project is found exactly once when identifiers and
references are duplicate free. -/
theorem countP_projPart (rs : List Researcher) (p : Project) (r : String)
    (hrefs : p.researcherRefs.Nodup) (hr : r ∈ p.researcherRefs)
    (hmiss : ∀ x ∈ rs, x.id ≠ r) :
    ∀ ps : List Project, p ∈ ps → (ps.map Project.id).Nodup →
      (ps.flatMap (fun q =>
          (q.researcherRefs.filter (fun s => !(rs.any (fun x => x.id == s)))).map
            (projRefFinding q))).countP (projErrPred p.id r) = 1 := by
  intro ps
  induction ps with
  | nil => intro hp _; cases hp
  | cons q qs ih =>
      intro hp hnd
      simp only [List.flatMap_cons, List.countP_append]
      have hnd' := hnd
      simp only [List.map_cons, List.nodup_cons] at hnd'
      obtain ⟨hqni, hqs⟩ := hnd'
      rcases List.mem_cons.mp hp with he | hpqs
      · subst he
        have hmr : (!(rs.any (fun x => x.id == r))) = true := by
          have hfa : (rs.any (fun x => x.id == r)) = false := by
            rw [List.any_eq_false]
            intro x hx
            simp [hmiss x hx]
          rw [hfa]
          rfl
        have hone : ((p.researcherRefs.filter
            (fun s => !(rs.any (fun x => x.id == s)))).map
              (projRefFinding p)).countP (projErrPred p.id r) = 1 := by
          rw [List.countP_map, List.countP_filter]
          rw [List.countP_congr (q :=
            fun s => s == r && !(rs.any (fun x => x.id == s)))]
          · exact countP_beq_and_eq_one p.researcherRefs r _ hrefs hr hmr
          · intro s _
            simp [Function.comp, projErrPred_projRefFinding]
        have hzero : (qs.flatMap (fun q =>
            (q.researcherRefs.filter (fun s => !(rs.any (fun x => x.id == s)))).map
              (projRefFinding q))).countP (projErrPred p.id r) = 0 := by
          rw [List.countP_eq_zero]
          intro f hf hpf
          rw [List.mem_flatMap] at hf
          obtain ⟨q', hq', hfm⟩ := hf
          obtain ⟨s, _, rfl⟩ := List.mem_map.mp hfm
          have hqid : q'.id ≠ p.id := by
            intro he2
            exact hqni (he2 ▸ List.mem_map_of_mem Project.id hq')
          simp [projErrPred, projRefFinding] at hpf
          exact hqid hpf.1
        rw [hone, hzero]
      · have hqid : q.id ≠ p.id := by
          intro he2
          exact hqni (he2 ▸ List.mem_map_of_mem Project.id hpqs)
        have hzero : ((q.researcherRefs.filter
            (fun s => !(rs.any (fun x => x.id == s)))).map
              (projRefFinding q)).countP (projErrPred p.id r) = 0 := by
          rw [List.countP_eq_zero]
          intro f hf hpf
          obtain ⟨s, _, rfl⟩ := List.mem_map.mp hf
          simp [projErrPred, projRefFinding] at hpf
          exact hqid hpf.1
        rw [hzero, ih hpqs hqs]

/-- Counting the publication-side cross-reference findings: an unresolved
reference of a listed publication is found exactly once when identifiers
are duplicate free. -/
theorem countP_pubPart (ps : List Project) (b : Publication) (r : String)
    (hbr : b.projectRef = some r) (hmiss : ∀ x ∈ ps, x.id ≠ r) :
    ∀ bs : List Publication, b ∈ bs → (bs.map Publication.id).Nodup →
      (bs.flatMap (fun q =>
          match q.projectRef with
          | some s => if ps.any (fun x => x.id == s) then [] else [pubRefFinding q s]
          | none => [])).countP (pubErrPred b.id r) = 1 := by
  intro bs
  induction bs with
  | nil => intro hb _; cases hb
  | cons q qs ih =>
      intro hb hnd
      simp only [List.flatMap_cons, List.countP_append]
      have hnd' := hnd
      simp only [List.map_cons, List.nodup_cons] at hnd'
      obtain ⟨hqni, hqs⟩ := hnd'
      rcases List.mem_cons.mp hb with he | hbqs
      · subst he
        have hanyf : (ps.any (fun x => x.id == r)) = false := by
          rw [List.any_eq_false]
          intro x hx
          simp [hmiss x hx]
        have hone : ((match b.projectRef with
            | some s => if ps.any (fun x => x.id == s) then [] else [pubRefFinding b s]
            | none => ([] : List Finding))).countP (pubErrPred b.id r) = 1 := by
          rw [hbr]
          have hcnd : ¬ ((ps.any (fun x => x.id == r)) = true) := by
            simp [hanyf]
          simp only [if_neg hcnd]
          simp [List.countP_cons, pubErrPred, pubRefFinding]
        have hzero : (qs.flatMap (fun q =>
            match q.projectRef with
            | some s => if ps.any (fun x => x.id == s) then [] else [pubRefFinding q s]
            | none => [])).countP (pubErrPred b.id r) = 0 := by
          rw [List.countP_eq_zero]
          intro f hf hpf
          rw [List.mem_flatMap] at hf
          obtain ⟨q', hq', hfm⟩ := hf
          have hqid : q'.id ≠ b.id := by
            intro he2
            exact hqni (he2 ▸ List.mem_map_of_mem Publication.id hq')
          cases hq'r : q'.projectRef with
          | none => rw [hq'r] at hfm; cases hfm
          | some s =>
              rw [hq'r] at hfm
              by_cases hc : (ps.any (fun x => x.id == s)) = true
              · simp [hc] at hfm
              · simp [hc] at hfm
                subst hfm
                simp [pubErrPred, pubRefFinding] at hpf
                exact hqid hpf.1
        rw [hone, hzero]
      · have hqid : q.id ≠ b.id := by
          intro he2
          exact hqni (he2 ▸ List.mem_map_of_mem Publication.id hbqs)
        have hzero : ((match q.projectRef with
            | some s => if ps.any (fun x => x.id == s) then [] else [pubRefFinding q s]
            | none => ([] : List Finding))).countP (pubErrPred b.id r) = 0 := by
          rw [List.countP_eq_zero]
          intro f hf hpf
          cases hq'r : q.projectRef with
          | none => rw [hq'r] at hf; cases hf
          | some s =>
              rw [hq'r] at hf
              by_cases hc : (ps.any (fun x => x.id == s)) = true
              · simp [hc] at hf
              · simp [hc] at hf
                subst hf
                simp [pubErrPred, pubRefFinding] at hpf
                exact hqid hpf.1
        rw [hzero, ih hbqs hqs]

/-- The publication part of the cross-reference rule never satisfies the
project error test. -/
theorem countP_pubPart_projErr_zero (ps : List Project) (bs : List Publication)
    (pid r : String) :
    (bs.flatMap (fun q =>
        match q.projectRef with
        | some s => if ps.any (fun x => x.id == s) then [] else [pubRefFinding q s]
        | none => [])).countP (projErrPred pid r) = 0 := by
  rw [List.countP_eq_zero]
  intro f hf hpf
  rw [List.mem_flatMap] at hf
  obtain ⟨q, _, hfm⟩ := hf
  cases hqr : q.projectRef with
  | none => rw [hqr] at hfm; cases hfm
  | some s =>
      rw [hqr] at hfm
      by_cases hc : (ps.any (fun x => x.id == s)) = true
      · simp [hc] at hfm
      · simp [hc] at hfm
        subst hfm
        simp [projErrPred, pubRefFinding] at hpf

/-- The project part of the cross-reference rule never satisfies the
publication error test. -/
theorem countP_projPart_pubErr_zero (rs : List Researcher) (ps : List Project)
    (pid r : String) :
    (ps.flatMap (fun q =>
        (q.researcherRefs.filter (fun s => !(rs.any (fun x => x.id == s)))).map
          (projRefFinding q))).countP (pubErrPred pid r) = 0 := by
  rw [List.countP_eq_zero]
  intro f hf hpf
  rw [List.mem_flatMap] at hf
  obtain ⟨q, _, hfm⟩ := hf
  obtain ⟨s, _, rfl⟩ := List.mem_map.mp hfm
  simp [pubErrPred, projRefFinding] at hpf

/-! ## Claims about the build pipeline -/

/-- Claim C2: spec modelled — every cross-reference to a nonexistent
identifier yields exactly one ValidationError, and that finding names
both the offending record and the missing target identifier. -/
theorem crossref_exactly_one (d : Dataset)
    (hpnd : (d.projects.map Project.id).Nodup)
    (hbnd : (d.publications.map Publication.id).Nodup) :
    (∀ p ∈ d.projects, p.researcherRefs.Nodup →
        ∀ r ∈ p.researcherRefs, (∀ x ∈ d.researchers, x.id ≠ r) →
          (validate d).countP (projErrPred p.id r) = 1 ∧
          projRefFinding p r ∈ validate d ∧
          (projRefFinding p r).ids = [p.id, r]) ∧
    (∀ b ∈ d.publications, ∀ r, b.projectRef = some r →
        (∀ x ∈ d.projects, x.id ≠ r) →
          (validate d).countP (pubErrPred b.id r) = 1 ∧
          pubRefFinding b r ∈ validate d ∧
          (pubRefFinding b r).ids = [b.id, r]) := by
  constructor
  · intro p hp hrefs r hr hmiss
    have hmtrue : (!(d.researchers.any (fun x => x.id == r))) = true := by
      have hfa : (d.researchers.any (fun x => x.id == r)) = false := by
        rw [List.any_eq_false]
        intro x hx
        simp [hmiss x hx]
      rw [hfa]
      rfl
    refine ⟨?_, ?_, rfl⟩
    · have hz1 : (requiredFieldFindings d).countP (projErrPred p.id r) = 0 :=
        countP_projErr_zero_of_target _ _ _ (fun f hf => (requiredField_shape d f hf).2)
      have hz2 : (enumFindings d).countP (projErrPred p.id r) = 0 :=
        countP_projErr_zero_of_target _ _ _ (fun f hf => (enum_shape d f hf).2)
      have hz4 : (uniquenessFindings d).countP (projErrPred p.id r) = 0 :=
        countP_projErr_zero_of_target _ _ _ (fun f hf => (uniqueness_shape d f hf).2)
      have hz5 : (leadershipFindings d).countP (projErrPred p.id r) = 0 :=
        countP_projErr_zero_of_target _ _ _
          (fun f hf => (leadership_shape d f hf).2.2.1)
      have hcp : (crossRefFindings d).countP (projErrPred p.id r) = 1 := by
        simp only [crossRefFindings, List.countP_append]
        rw [countP_projPart d.researchers p r hrefs hr hmiss d.projects hp hpnd,
          countP_pubPart_projErr_zero d.projects d.publications p.id r]
      simp [validate, List.countP_append, hz1, hz2, hz4, hz5, hcp]
    · have hfm : projRefFinding p r ∈ crossRefFindings d := by
        simp only [crossRefFindings, List.mem_append]
        left
        rw [List.mem_flatMap]
        exact ⟨p, hp, List.mem_map_of_mem _ (List.mem_filter.mpr ⟨hr, hmtrue⟩)⟩
      simp [validate, List.mem_append, hfm]
  · intro b hb r hbr hmiss
    refine ⟨?_, ?_, rfl⟩
    · have hz1 : (requiredFieldFindings d).countP (pubErrPred b.id r) = 0 :=
        countP_pubErr_zero_of_target _ _ _ (fun f hf => (requiredField_shape d f hf).2)
      have hz2 : (enumFindings d).countP (pubErrPred b.id r) = 0 :=
        countP_pubErr_zero_of_target _ _ _ (fun f hf => (enum_shape d f hf).2)
      have hz4 : (uniquenessFindings d).countP (pubErrPred b.id r) = 0 :=
        countP_pubErr_zero_of_target _ _ _ (fun f hf => (uniqueness_shape d f hf).2)
      have hz5 : (leadershipFindings d).countP (pubErrPred b.id r) = 0 :=
        countP_pubErr_zero_of_target _ _ _
          (fun f hf => (leadership_shape d f hf).2.2.1)
      have hcp : (crossRefFindings d).countP (pubErrPred b.id r) = 1 := by
        simp only [crossRefFindings, List.countP_append]
        rw [countP_pubPart d.projects b r hbr hmiss d.publications hb hbnd,
          countP_projPart_pubErr_zero d.researchers d.projects b.id r]
      simp [validate, List.countP_append, hz1, hz2, hz4, hz5, hcp]
    · have hanyf : (d.projects.any (fun x => x.id == r)) = false := by
        rw [List.any_eq_false]
        intro x hx
        simp [hmiss x hx]
      have hfm : pubRefFinding b r ∈ crossRefFindings d := by
        simp only [crossRefFindings, List.mem_append]
        right
        rw [List.mem_flatMap]
        refine ⟨b, hb, ?_⟩
        rw [hbr]
        have hcnd : ¬ ((d.projects.any (fun x => x.id == r)) = true) := by
          simp [hanyf]
        simp only [if_neg hcnd]
        exact List.mem_singleton.mpr rfl
      simp [validate, List.mem_append, hfm]

/-- Witness for C2 on the sample dataset: the dangling project reference
r9 and the dangling publication reference p9 each yield exactly one
error naming the offending record and the missing identifier. -/
theorem crossref_exactly_one_witness :
    ((validate samplePipelineData).countP (projErrPred sampleProj.id "r9") = 1 ∧
      projRefFinding sampleProj "r9" ∈ validate samplePipelineData ∧
      (projRefFinding sampleProj "r9").ids = [sampleProj.id, "r9"]) ∧
    ((validate samplePipelineData).countP (pubErrPred samplePub.id "p9") = 1 ∧
      pubRefFinding samplePub "p9" ∈ validate samplePipelineData ∧
      (pubRefFinding samplePub "p9").ids = [samplePub.id, "p9"]) :=
  ⟨(crossref_exactly_one samplePipelineData (by decide) (by decide)).1 sampleProj
      (by decide) (by decide) "r9" (by decide) (by decide),
   (crossref_exactly_one samplePipelineData (by decide) (by decide)).2 samplePub
      (by decide) "p9" (by decide) (by decide)⟩

/-- Claim C4: spec modelled — the leadership rule warns once when no
researcher is flagged, is silent when exactly one is flagged, and warns
once naming all flagged identifiers when several are flagged. -/
theorem leadership_warning_rule (d : Dataset) :
    ((d.researchers.filter (fun r => r.lead)).length = 0 →
        (validate d).countP isLeadWarn = 1) ∧
    ((d.researchers.filter (fun r => r.lead)).length = 1 →
        (validate d).countP isLeadWarn = 0) ∧
    (1 < (d.researchers.filter (fun r => r.lead)).length →
        (validate d).countP isLeadWarn = 1 ∧
        ∀ f ∈ validate d, isLeadWarn f = true →
          f.ids = (d.researchers.filter (fun r => r.lead)).map (fun r => r.id)) := by
  have h1 : (requiredFieldFindings d).countP isLeadWarn = 0 :=
    countP_lead_zero_of_rule _ "required"
      (fun f hf => (requiredField_shape d f hf).1) (by decide)
  have h2 : (enumFindings d).countP isLeadWarn = 0 :=
    countP_lead_zero_of_rule _ "enum" (fun f hf => (enum_shape d f hf).1) (by decide)
  have h3 : (crossRefFindings d).countP isLeadWarn = 0 :=
    countP_lead_zero_of_rule _ "crossref" (crossRef_rule d) (by decide)
  have h4 : (uniquenessFindings d).countP isLeadWarn = 0 :=
    countP_lead_zero_of_rule _ "unique"
      (fun f hf => (uniqueness_shape d f hf).1) (by decide)
  have hv : (validate d).countP isLeadWarn = (leadershipFindings d).countP isLeadWarn := by
    simp [validate, List.countP_append, h1, h2, h3, h4]
  refine ⟨?_, ?_, ?_⟩
  · intro h0
    rw [hv]
    have hne : ((d.researchers.filter (fun r => r.lead)).length == 1) = false := by
      simp [h0]
    simp [leadershipFindings, hne, isLeadWarn]
  · intro hone
    rw [hv]
    have heq : ((d.researchers.filter (fun r => r.lead)).length == 1) = true := by
      simp [hone]
    simp [leadershipFindings, heq]
  · intro hgt
    constructor
    · rw [hv]
      have hne : ((d.researchers.filter (fun r => r.lead)).length == 1) = false := by
        simp only [beq_eq_false_iff_ne, ne_eq]
        omega
      simp [leadershipFindings, hne, isLeadWarn]
    · intro f hf hw
      have hwr : f.rule = "leadership" := by
        have hw2 := hw
        simp only [isLeadWarn, Bool.and_eq_true, beq_iff_eq] at hw2
        exact hw2.1
      have hfl : f ∈ leadershipFindings d := by
        simp only [validate, List.mem_append] at hf
        rcases hf with (((hf | hf) | hf) | hf) | hf
        · exact absurd ((requiredField_shape d f hf).1.symm.trans hwr) (by decide)
        · exact absurd ((enum_shape d f hf).1.symm.trans hwr) (by decide)
        · exact absurd ((crossRef_rule d f hf).symm.trans hwr) (by decide)
        · exact absurd ((uniqueness_shape d f hf).1.symm.trans hwr) (by decide)
        · exact hf
      exact (leadership_shape d f hfl).2.2.2

/-- Witness for C4 on the sample dataset with two flagged leads. -/
theorem leadership_warning_rule_witness :
    1 < (sampleLeadData.researchers.filter (fun r => r.lead)).length ∧
    (validate sampleLeadData).countP isLeadWarn = 1 ∧
    (∀ f ∈ validate sampleLeadData, isLeadWarn f = true →
      f.ids = (sampleLeadData.researchers.filter (fun r => r.lead)).map (fun r => r.id)) :=
  ⟨by decide,
   ((leadership_warning_rule sampleLeadData).2.2 (by decide)).1,
   ((leadership_warning_rule sampleLeadData).2.2 (by decide)).2⟩

/-- Claim C3: spec modelled — two runs of the full pipeline on the same
source snapshot, at different wall-clock times, produce the same output
files byte for byte; the timestamp never reaches the output. -/
theorem pipeline_idempotent (t₁ t₂ : Nat) (base : String) (src : SourceSnapshot) :
    buildPipeline ⟨t₁, base⟩ src = buildPipeline ⟨t₂, base⟩ src := rfl
